import Mathlib

/-!
Shallow embedding of the attachment lifecycle manager of `detail.js`
(upload pipeline, resilient transport, record synchronizer, attachment
viewer, deletion coordinator), with theorems settling the testable
properties stated for it.

Conventions of the embedding:
* JS objects become structures; `undefined`/`null` fields become `Option`.
* Network effects are made explicit: a call site that performs a read is
  parametrised by the outcome of that read (a value of an outcome type),
  and a retry loop is parametrised by the stream of responses the endpoint
  would return on the successive requests.
* DOM writes (building the carousel body, progress bars, toasts) are
  abstracted to the value they are built from; functions that only touch
  the DOM and never the state variables are modelled as pure observations.
-/

/-- An attachment object as stored in the Airtable attachment field:
`{ id, url, filename, type }`, where `id` is absent for not-yet-persisted
items and `type` may be absent.  (Data model section 3 of the design;
objects built in `uploadToDropbox` carry only `url` and `filename`.) -/
structure Attachment where
  id : Option String
  url : String
  filename : String
  type : Option String
deriving DecidableEq, Repr

/-- The merge performed at the end of `uploadToDropbox` (detail.js):

```js
const combinedList = [...latestFromAirtable];
for (const newFile of uploadedUrls) {
  if (!combinedList.some(f => f.url === newFile.url)) {
    combinedList.push(newFile);
  }
}
```

`latestFromAirtable` is the freshly re-read stored list and `uploadedUrls`
is the accumulator holding the list read at batch start plus the newly
uploaded entries. -/
def combinedList (latestFromAirtable uploadedUrls : List Attachment) : List Attachment :=
  uploadedUrls.foldl
    (fun acc newFile =>
      if acc.any (fun f => f.url = newFile.url) then acc else acc ++ [newFile])
    latestFromAirtable

/-- Unfolding the merge loop one uploaded file at a time. -/
lemma combinedList_cons (latest : List Attachment) (f : Attachment)
    (rest : List Attachment) :
    combinedList latest (f :: rest) =
      combinedList
        (if latest.any (fun g => g.url = f.url) then latest else latest ++ [f])
        rest := rfl

/-- One step of the merge loop keeps every element already accumulated. -/
lemma combinedList_mem_of_mem_init (latest uploadedUrls : List Attachment)
    (a : Attachment) (ha : a ∈ latest) : a ∈ combinedList latest uploadedUrls := by
  induction uploadedUrls generalizing latest with
  | nil => simpa [combinedList] using ha
  | cons f rest ih =>
      rw [combinedList_cons]
      by_cases h : latest.any (fun g => g.url = f.url)
      · rw [if_pos h]; exact ih latest ha
      · rw [if_neg h]; exact ih (latest ++ [f]) (List.mem_append_left _ ha)

/-- Failure of the membership test means no accumulated entry has the url. -/
lemma not_any_url (latest : List Attachment) (u : String)
    (h : ¬ latest.any (fun g => g.url = u)) :
    u ∉ latest.map (fun g => g.url) := by
  intro hc
  rcases List.mem_map.mp hc with ⟨g, hg, hgu⟩
  exact h (List.any_eq_true.mpr ⟨g, hg, by simp [hgu]⟩)

/-- The merge loop preserves pairwise distinctness of urls: a file is only
pushed when no accumulated file carries its url. -/
lemma combinedList_url_nodup (latest uploadedUrls : List Attachment)
    (h : (latest.map (fun f => f.url)).Nodup) :
    ((combinedList latest uploadedUrls).map (fun f => f.url)).Nodup := by
  induction uploadedUrls generalizing latest with
  | nil => simpa [combinedList] using h
  | cons f rest ih =>
      rw [combinedList_cons]
      by_cases hmem : latest.any (fun g => g.url = f.url)
      · rw [if_pos hmem]; exact ih latest h
      · rw [if_neg hmem]
        refine ih (latest ++ [f]) ?_
        simp only [List.map_append, List.map_cons, List.map_nil]
        exact List.Nodup.append h (List.nodup_singleton _)
          (by simpa [List.disjoint_singleton] using not_any_url latest f.url hmem)

/-- A member of the merged list either was stored already or brought a url
that no stored entry had. -/
lemma combinedList_mem_cases (latest uploadedUrls : List Attachment)
    (a : Attachment) (ha : a ∈ combinedList latest uploadedUrls) :
    a ∈ latest ∨ a.url ∉ latest.map (fun f => f.url) := by
  induction uploadedUrls generalizing latest with
  | nil => exact Or.inl (by simpa [combinedList] using ha)
  | cons f rest ih =>
      rw [combinedList_cons] at ha
      by_cases hmem : latest.any (fun g => g.url = f.url)
      · rw [if_pos hmem] at ha; exact ih latest ha
      · rw [if_neg hmem] at ha
        rcases ih (latest ++ [f]) ha with h1 | h2
        · rcases List.mem_append.mp h1 with h | h
          · exact Or.inl h
          · have : a = f := by simpa using h
            subst this
            exact Or.inr (not_any_url latest a.url hmem)
        · refine Or.inr fun hc => h2 ?_
          rw [List.map_append]
          exact List.mem_append_left _ hc

/-- Claim C1: for every stored attachment list `L` with pairwise distinct
url values and every batch of uploaded entries, the merged list written
back by `uploadToDropbox` (its `combinedList`) has no two entries with the
same url, contains every entry of `L`, and in particular preserves every
id that existed in `L`. -/
theorem uploadToDropbox_combinedList_dedups_and_preserves
    (L uploadedUrls : List Attachment)
    (h : (L.map (fun f => f.url)).Nodup) :
    ((combinedList L uploadedUrls).map (fun f => f.url)).Nodup ∧
      (∀ a ∈ L, a ∈ combinedList L uploadedUrls) ∧
      (∀ i, i ∈ L.map (fun f => f.id) →
        i ∈ (combinedList L uploadedUrls).map (fun f => f.id)) := by
  refine ⟨combinedList_url_nodup L uploadedUrls h,
          fun a ha => combinedList_mem_of_mem_init L uploadedUrls a ha, ?_⟩
  intro i hi
  rcases List.mem_map.mp hi with ⟨a, ha, hai⟩
  exact List.mem_map.mpr ⟨a, combinedList_mem_of_mem_init L uploadedUrls a ha, hai⟩

/-- Witness for C1 at a concrete stored list and batch. -/
theorem uploadToDropbox_combinedList_dedups_and_preserves_witness :
    (([⟨some "att1", "u1", "a.png", none⟩] : List Attachment).map
        (fun f => f.url)).Nodup ∧
      (((combinedList [⟨some "att1", "u1", "a.png", none⟩]
          [⟨none, "u1", "b.png", none⟩, ⟨none, "u2", "c.png", none⟩]).map
        (fun f => f.url)).Nodup ∧
      (∀ a ∈ ([⟨some "att1", "u1", "a.png", none⟩] : List Attachment),
        a ∈ combinedList [⟨some "att1", "u1", "a.png", none⟩]
          [⟨none, "u1", "b.png", none⟩, ⟨none, "u2", "c.png", none⟩]) ∧
      (∀ i, i ∈ ([⟨some "att1", "u1", "a.png", none⟩] : List Attachment).map
          (fun f => f.id) →
        i ∈ (combinedList [⟨some "att1", "u1", "a.png", none⟩]
          [⟨none, "u1", "b.png", none⟩, ⟨none, "u2", "c.png", none⟩]).map
          (fun f => f.id))) :=
  ⟨by decide,
   uploadToDropbox_combinedList_dedups_and_preserves
     [⟨some "att1", "u1", "a.png", none⟩]
     [⟨none, "u1", "b.png", none⟩, ⟨none, "u2", "c.png", none⟩]
     (by decide)⟩

/-- An HTTP response as observed by `fetchWithRetry`: its status code plus
an abstract payload standing for the rest of the response object. -/
structure HttpResponse where
  status : Nat
  payload : String
deriving DecidableEq, Repr

/-- Result of a `fetchWithRetry` call: either some response with a
non-429 status, or the `Max retries reached` error thrown after the loop
(the `RateLimitExhausted` failure of the design). -/
inductive FetchOutcome where
  | success (response : HttpResponse)
  | rateLimitExhausted
deriving DecidableEq, Repr

/-- Observable trace of one `fetchWithRetry` call: its outcome, how many
requests were issued, and the total simulated delay slept in `setTimeout`. -/
structure RetryTrace where
  outcome : FetchOutcome
  requests : Nat
  totalDelay : Nat
deriving DecidableEq, Repr

/-- The `while (attempt < maxRetries)` loop of `fetchWithRetry`
(detail.js):

```js
while (attempt < maxRetries) {
  const response = await fetch(url, options);
  if (response.status !== 429) return response;
  await new Promise(res => setTimeout(res, delay));
  delay *= 2;
  attempt++;
}
throw new Error(...);
```

`responses i` is the response the endpoint returns to the request of
attempt `i`; `fuel` is `maxRetries - attempt`, `delay` the current backoff
delay. -/
def fetchWithRetryLoop (responses : Nat → HttpResponse) :
    Nat → Nat → Nat → RetryTrace
  | 0, _, _ => ⟨.rateLimitExhausted, 0, 0⟩
  | fuel + 1, attempt, delay =>
      let response := responses attempt
      if response.status ≠ 429 then ⟨.success response, 1, 0⟩
      else
        let rest := fetchWithRetryLoop responses fuel (attempt + 1) (delay * 2)
        ⟨rest.outcome, rest.requests + 1, rest.totalDelay + delay⟩

/-- `fetchWithRetry(url, options, maxRetries = 5)`: starts at attempt 0
with a 500ms delay. -/
def fetchWithRetry (responses : Nat → HttpResponse) (maxRetries : Nat) :
    RetryTrace :=
  fetchWithRetryLoop responses maxRetries 0 500

/-- When the endpoint rate-limits every attempt the loop has fuel for, the
loop exhausts its fuel, issuing one request per unit of fuel. -/
lemma fetchWithRetryLoop_exhausted (responses : Nat → HttpResponse) :
    ∀ fuel a d, (∀ i, i < fuel → (responses (a + i)).status = 429) →
      fetchWithRetryLoop responses fuel a d =
        ⟨.rateLimitExhausted, fuel, (Finset.range fuel).sum (fun i => d * 2 ^ i)⟩ := by
  intro fuel
  induction fuel with
  | zero => intro a d _; simp [fetchWithRetryLoop]
  | succ n ih =>
      intro a d h
      have h0 : (responses a).status = 429 := by simpa using h 0 (Nat.succ_pos n)
      have hrec := ih (a + 1) (d * 2) (fun i hi => by
        have := h (i + 1) (Nat.succ_lt_succ hi)
        simpa [Nat.add_assoc, Nat.add_comm 1 i] using this)
      have hsum : (Finset.range (n + 1)).sum (fun i => d * 2 ^ i) =
          (Finset.range n).sum (fun i => d * 2 * 2 ^ i) + d := by
        rw [Finset.sum_range_succ']
        simp only [pow_zero, mul_one, pow_succ]
        congr 1
        exact Finset.sum_congr rfl (fun i _ => by ring)
      simp [fetchWithRetryLoop, h0, hrec, hsum]

/-- When the endpoint rate-limits the first `k` attempts and then answers
with a non-429 status, the loop returns that response after `k + 1`
requests and a total delay summing the doubling series. -/
lemma fetchWithRetryLoop_success (responses : Nat → HttpResponse) :
    ∀ k fuel a d, (∀ i, i < k → (responses (a + i)).status = 429) →
      (responses (a + k)).status ≠ 429 → k < fuel →
      fetchWithRetryLoop responses fuel a d =
        ⟨.success (responses (a + k)), k + 1,
          (Finset.range k).sum (fun i => d * 2 ^ i)⟩ := by
  intro k
  induction k with
  | zero =>
      intro fuel a d _ hk hlt
      match fuel, hlt with
      | fuel + 1, _ =>
        simp only [Nat.add_zero] at hk
        simp [fetchWithRetryLoop, hk]
  | succ n ih =>
      intro fuel a d h hk hlt
      match fuel, hlt with
      | fuel + 1, hlt =>
        have h0 : (responses a).status = 429 := by simpa using h 0 (Nat.succ_pos n)
        have hrec := ih fuel (a + 1) (d * 2)
          (fun i hi => by
            have := h (i + 1) (Nat.succ_lt_succ hi)
            simpa [Nat.add_assoc, Nat.add_comm 1 i] using this)
          (by simpa [Nat.add_assoc, Nat.add_comm 1 n] using hk)
          (Nat.lt_of_succ_lt_succ hlt)
        have hsum : (Finset.range (n + 1)).sum (fun i => d * 2 ^ i) =
            (Finset.range n).sum (fun i => d * 2 * 2 ^ i) + d := by
          rw [Finset.sum_range_succ']
          simp only [pow_zero, mul_one, pow_succ]
          congr 1
          exact Finset.sum_congr rfl (fun i _ => by ring)
        have harg : a + 1 + n = a + (n + 1) := by omega
        simp [fetchWithRetryLoop, h0, hrec, hsum, harg]

/-- Claim C2: `fetchWithRetry` with bound `m ≥ 1` returns the first
non-429 response immediately after a single request; if the endpoint
returns 429 on the first `k < m` attempts and then succeeds, the call
succeeds after `k + 1` requests with a total simulated delay equal to the
sum of the doubling series starting at 500ms; and if the endpoint returns
429 on `m` consecutive attempts, the call fails with the rate-limit
exhausted error after issuing exactly `m` requests. -/
theorem fetchWithRetry_backoff_spec (responses : Nat → HttpResponse)
    (m : Nat) (hm : 1 ≤ m) :
    ((responses 0).status ≠ 429 →
        fetchWithRetry responses m = ⟨.success (responses 0), 1, 0⟩) ∧
      (∀ k, k < m → (∀ i, i < k → (responses i).status = 429) →
        (responses k).status ≠ 429 →
        fetchWithRetry responses m =
          ⟨.success (responses k), k + 1,
            (Finset.range k).sum (fun i => 500 * 2 ^ i)⟩) ∧
      ((∀ i, i < m → (responses i).status = 429) →
        (fetchWithRetry responses m).outcome = .rateLimitExhausted ∧
          (fetchWithRetry responses m).requests = m) := by
  refine ⟨?_, ?_, ?_⟩
  · intro h0
    have := fetchWithRetryLoop_success responses 0 m 0 500
      (fun i hi => absurd hi (Nat.not_lt_zero i)) (by simpa using h0) hm
    simpa [fetchWithRetry] using this
  · intro k hk h429 hok
    have := fetchWithRetryLoop_success responses k m 0 500
      (fun i hi => by simpa using h429 i hi) (by simpa using hok) hk
    simpa [fetchWithRetry] using this
  · intro h429
    have := fetchWithRetryLoop_exhausted responses m 0 500
      (fun i hi => by simpa using h429 i hi)
    simp [fetchWithRetry, this]

/-- Witness for C2: an endpoint that rate-limits twice then succeeds,
with bound 5: the call succeeds after 3 requests and 1500ms total delay;
with an endpoint that always rate-limits, the call exhausts after exactly
5 requests. -/
theorem fetchWithRetry_backoff_spec_witness :
    (1 ≤ 5 ∧
      fetchWithRetry
        (fun i => if i < 2 then ⟨429, "limited"⟩ else ⟨200, "ok"⟩) 5 =
        ⟨.success ⟨200, "ok"⟩, 3, 1500⟩) ∧
      (fetchWithRetry (fun _ => ⟨429, "limited"⟩) 5).outcome =
          .rateLimitExhausted ∧
        (fetchWithRetry (fun _ => ⟨429, "limited"⟩) 5).requests = 5 := by
  refine ⟨⟨by decide, ?_⟩, ?_⟩
  · have h := (fetchWithRetry_backoff_spec
      (fun i => if i < 2 then ⟨429, "limited"⟩ else ⟨200, "ok"⟩) 5
      (by decide)).2.1 2 (by decide)
      (fun i hi => by interval_cases i <;> decide) (by decide)
    simpa using h
  · exact (fetchWithRetry_backoff_spec (fun _ => ⟨429, "limited"⟩) 5
      (by decide)).2.2 (fun i _ => rfl)

/-- An Airtable record as the read path sees it: the record id and the
attachment fields present on the record (`record.fields`), as an
association list from field name to stored attachment list. -/
structure AirtableRecord where
  id : String
  fields : List (String × List Attachment)
deriving DecidableEq, Repr

/-- `record.fields[imageField]`: lookup of an attachment field by name,
`none` when the field is absent from the returned record. -/
def recordField (r : AirtableRecord) (name : String) : Option (List Attachment) :=
  (r.fields.find? (fun p => p.1 = name)).map (fun p => p.2)

/-- Outcome of the network part of a read in
`fetchCurrentImagesFromAirtable`: the awaited fetch (or the JSON parse)
threw, the response was not ok, or a record list was returned. -/
inductive ReadOutcome where
  | thrown
  | httpError (status : Nat)
  | records (records : List AirtableRecord)
deriving DecidableEq, Repr

/-- JS falsiness of the `warrantyId` argument (`!warrantyId`): absent or
the empty string. -/
def strFalsy : Option String → Bool
  | none => true
  | some s => s.isEmpty

/-- `fetchCurrentImagesFromAirtable(warrantyId, imageField)` (detail.js):
returns `[]` when the warranty id is missing, when the request throws,
when the response is not ok, when no record matches, or when the record
lacks the attachment field; otherwise returns the stored list
`record.fields[imageField]` of the first matching record.  The `try`
block catches every exception, so the function never throws. -/
def fetchCurrentImagesFromAirtable (warrantyId : Option String)
    (imageField : String) (outcome : ReadOutcome) : List Attachment :=
  if strFalsy warrantyId then []
  else
    match outcome with
    | .thrown => []
    | .httpError _ => []
    | .records rs =>
        match rs with
        | [] => []
        | record :: _ =>
            match recordField record imageField with
            | some imgs => imgs
            | none => []

/-- Claim C7: `fetchCurrentImagesFromAirtable` returns `[]` on every read
failure — missing warranty id, raised exception, non-ok HTTP response, no
matching record, or absent attachment field — and on success returns the
stored ordered attachment list of the requested field.  (It never throws:
the embedding is a total function because the source wraps the whole body
in `try` and returns `[]` from `catch`.) -/
theorem fetchCurrentImagesFromAirtable_total_read
    (warrantyId : Option String) (imageField : String) :
    (strFalsy warrantyId = true →
        ∀ outcome, fetchCurrentImagesFromAirtable warrantyId imageField outcome = []) ∧
      fetchCurrentImagesFromAirtable warrantyId imageField .thrown = [] ∧
      (∀ s, fetchCurrentImagesFromAirtable warrantyId imageField (.httpError s) = []) ∧
      fetchCurrentImagesFromAirtable warrantyId imageField (.records []) = [] ∧
      (∀ r rest, recordField r imageField = none →
        fetchCurrentImagesFromAirtable warrantyId imageField
          (.records (r :: rest)) = []) ∧
      (∀ r rest imgs, strFalsy warrantyId = false →
        recordField r imageField = some imgs →
        fetchCurrentImagesFromAirtable warrantyId imageField
          (.records (r :: rest)) = imgs) := by
  refine ⟨?_, ?_, ?_, ?_, ?_, ?_⟩
  · intro h outcome
    simp [fetchCurrentImagesFromAirtable, h]
  · by_cases h : strFalsy warrantyId <;>
      simp [fetchCurrentImagesFromAirtable, h]
  · intro s
    by_cases h : strFalsy warrantyId <;>
      simp [fetchCurrentImagesFromAirtable, h]
  · by_cases h : strFalsy warrantyId <;>
      simp [fetchCurrentImagesFromAirtable, h]
  · intro r rest hf
    by_cases h : strFalsy warrantyId <;>
      simp [fetchCurrentImagesFromAirtable, h, hf]
  · intro r rest imgs h hf
    simp [fetchCurrentImagesFromAirtable, h, hf]

/-- Witness for C7 at a concrete record carrying one attachment field. -/
theorem fetchCurrentImagesFromAirtable_total_read_witness :
    strFalsy (some "WR-1002") = false ∧
      recordField ⟨"recABC123", [("Picture(s) of Issue",
          [⟨some "att1", "u1", "a.png", none⟩])]⟩ "Picture(s) of Issue" =
        some [⟨some "att1", "u1", "a.png", none⟩] ∧
      fetchCurrentImagesFromAirtable (some "WR-1002") "Picture(s) of Issue"
          (.records [⟨"recABC123", [("Picture(s) of Issue",
            [⟨some "att1", "u1", "a.png", none⟩])]⟩]) =
        [⟨some "att1", "u1", "a.png", none⟩] :=
  ⟨by decide, by decide,
   (fetchCurrentImagesFromAirtable_total_read (some "WR-1002")
       "Picture(s) of Issue").2.2.2.2.2
     ⟨"recABC123", [("Picture(s) of Issue", [⟨some "att1", "u1", "a.png", none⟩])]⟩
     [] [⟨some "att1", "u1", "a.png", none⟩] (by decide) (by decide)⟩

/-- JS `imageIdsToDelete.includes(img.id)`: membership of an attachment id
in the deletion set; an absent id never matches. -/
def idMem (ids : List String) : Option String → Bool
  | some i => ids.contains i
  | none => false

/-- Result of one `deleteImagesByLotName` call at the store level: the
attachment list stored for the target field afterwards, and whether a
PATCH was issued. -/
structure DeleteOutcome where
  store : List Attachment
  wrote : Bool
deriving DecidableEq, Repr

/-- `deleteImagesByLotName(warrantyId, imageIdsToDelete, imageField)`
(detail.js), modelled at the store level: `store` is the attachment list
the re-read (`fetchCurrentImagesFromAirtable`, success path) returns.
Returns without patching when the warranty id is falsy, when the deletion
set is empty, when the re-read list is empty, or when filtering removes
nothing (equal lengths); otherwise PATCHes the filtered list. -/
def deleteImagesByLotName (warrantyId : Option String) (ids : List String)
    (store : List Attachment) : DeleteOutcome :=
  if strFalsy warrantyId then ⟨store, false⟩
  else if ids.isEmpty then ⟨store, false⟩
  else if store.isEmpty then ⟨store, false⟩
  else if (store.filter (fun img => !(idMem ids img.id))).length = store.length then
    ⟨store, false⟩
  else ⟨store.filter (fun img => !(idMem ids img.id)), true⟩

/-- Claim C3: deletion is idempotent.  Running `deleteImagesByLotName`
twice in sequence with the same deletion set leaves the stored list
identical to its state after the first call, and the second call performs
no write (it hits the equal-lengths early return); no error is raised —
the embedding is a total function because the source catches every
exception. -/
theorem deleteImagesByLotName_idempotent (warrantyId : Option String)
    (ids : List String) (store : List Attachment) :
    deleteImagesByLotName warrantyId ids
        (deleteImagesByLotName warrantyId ids store).store =
      ⟨(deleteImagesByLotName warrantyId ids store).store, false⟩ := by
  by_cases h1 : strFalsy warrantyId
  · simp [deleteImagesByLotName, h1]
  · by_cases h2 : ids.isEmpty
    · simp [deleteImagesByLotName, h1, h2]
    · by_cases h3 : store.isEmpty
      · simp [deleteImagesByLotName, h1, h2, h3]
      · by_cases h4 : (store.filter (fun img => !(idMem ids img.id))).length =
            store.length
        · simp [deleteImagesByLotName, h1, h2, h3, h4]
        · have hfix : (store.filter (fun img => !(idMem ids img.id))).filter
              (fun img => !(idMem ids img.id)) =
              store.filter (fun img => !(idMem ids img.id)) :=
            List.filter_eq_self.mpr (fun a ha => (List.mem_filter.mp ha).2)
          by_cases h5 : (store.filter (fun img => !(idMem ids img.id))).isEmpty
          · simp [deleteImagesByLotName, h1, h2, h3, h4, h5]
          · simp [deleteImagesByLotName, h1, h2, h3, h4, h5, hfix]

/-- Carousel state: the global variables `currentCarouselFiles`,
`currentCarouselIndex`, `currentCarouselField`, `currentWarrantyId` of
detail.js. -/
structure CarouselState where
  files : List Attachment
  index : Nat
  fieldName : Option String
  warrantyId : Option String
deriving DecidableEq, Repr

/-- State after `closeCarousel()`: the reset block sets
`currentCarouselFiles = []`, `currentCarouselIndex = 0`,
`currentCarouselField = null`, `currentWarrantyId = null` (the DOM work —
hiding the overlay, re-enabling scroll and page swipe — is not part of the
state). -/
def closedCarousel : CarouselState := ⟨[], 0, none, none⟩

/-- `displayCarouselItem(index)` (detail.js): returns early — rendering
nothing and touching no state variable — when the files value is not an
array or the index is outside `[0, length)`; otherwise it rebuilds the
carousel body from `currentCarouselFiles[index]` (type-directed: an image
element with a cache-busting query, a PDF iframe, or a download link).
The model yields the attachment the body is built from; the JS index is a
number, so the index is an integer here to cover the `index < 0` guard. -/
def displayCarouselItem (files : List Attachment) (index : Int) :
    Option Attachment :=
  if 0 ≤ index ∧ index < files.length then files[index.toNat]? else none

/-- In-range indices render exactly the file at the index. -/
lemma displayCarouselItem_natIndex (files : List Attachment) (i : Nat)
    (h : i < files.length) : displayCarouselItem files i = files[i]? := by
  unfold displayCarouselItem
  rw [if_pos ⟨Int.natCast_nonneg i, by exact_mod_cast h⟩]
  simp

/-- `window.nextImage` (detail.js): no-op when the working set is empty,
otherwise advances the index cyclically and re-renders.  Yields the new
state and the rendered item. -/
def nextImage (st : CarouselState) : CarouselState × Option Attachment :=
  if st.files.length = 0 then (st, none)
  else
    let i := (st.index + 1) % st.files.length
    ({ st with index := i }, displayCarouselItem st.files i)

/-- The JS previous-index expression
`(currentCarouselIndex - 1 + currentCarouselFiles.length) % length`,
evaluated in exact integer arithmetic as JS numbers do here. -/
def prevIndex (n i : Nat) : Nat := (((i : Int) - 1 + n) % n).toNat

/-- For a nonempty working set the previous-index expression equals its
natural-number form. -/
lemma prevIndex_eq (n i : Nat) (hn : 1 ≤ n) :
    prevIndex n i = (i + n - 1) % n := by
  unfold prevIndex
  have h1 : ((i : Int) - 1 + n) = ((i + n - 1 : Nat) : Int) := by omega
  rw [h1, ← Int.natCast_mod, Int.toNat_natCast]

/-- `window.prevImage` (detail.js): no-op when the working set is empty,
otherwise steps the index back cyclically (with wrap-around) and
re-renders. -/
def prevImage (st : CarouselState) : CarouselState × Option Attachment :=
  if st.files.length = 0 then (st, none)
  else
    let i := prevIndex st.files.length st.index
    ({ st with index := i }, displayCarouselItem st.files i)

/-- A next step on a nonempty working set keeps the files. -/
lemma nextImage_files (s : CarouselState) (h : ¬ s.files.length = 0) :
    (nextImage s).1.files = s.files := by
  unfold nextImage
  rw [if_neg h]

/-- A next step on a nonempty working set advances the index by one,
modulo the length. -/
lemma nextImage_index (s : CarouselState) (h : ¬ s.files.length = 0) :
    (nextImage s).1.index = (s.index + 1) % s.files.length := by
  unfold nextImage
  rw [if_neg h]

/-- A previous step on a nonempty working set keeps the files. -/
lemma prevImage_files (s : CarouselState) (h : ¬ s.files.length = 0) :
    (prevImage s).1.files = s.files := by
  unfold prevImage
  rw [if_neg h]

/-- A previous step on a nonempty working set steps the index back,
modulo the length. -/
lemma prevImage_index (s : CarouselState) (h : ¬ s.files.length = 0) :
    (prevImage s).1.index = prevIndex s.files.length s.index := by
  unfold prevImage
  rw [if_neg h]

/-- Iterating next keeps the working set and advances the index modulo the
length. -/
lemma nextImage_iterate (st : CarouselState) (hn : 1 ≤ st.files.length)
    (hidx : st.index < st.files.length) :
    ∀ k, ((fun s => (nextImage s).1)^[k] st).files = st.files ∧
      ((fun s => (nextImage s).1)^[k] st).index =
        (st.index + k) % st.files.length := by
  intro k
  induction k with
  | zero =>
      exact ⟨rfl, by simpa using (Nat.mod_eq_of_lt hidx).symm⟩
  | succ k ih =>
      rw [Function.iterate_succ_apply']
      rcases ih with ⟨hfiles, hidx2⟩
      have hne : ¬ ((fun s => (nextImage s).1)^[k] st).files.length = 0 := by
        rw [hfiles]; omega
      refine ⟨by rw [nextImage_files _ hne, hfiles], ?_⟩
      rw [nextImage_index _ hne, hfiles, hidx2, Nat.mod_add_mod, Nat.add_assoc]

/-- Claim C5: carousel navigation is a cyclic group action on a working
set of length `n ≥ 1`: from any index in `[0, n)`, applying next `n`
times returns the index to its starting value, next-then-previous and
previous-then-next are the identity on the index, and on a 3-item working
set at index 0 previous yields index 2 with `files[2]` as the rendered
item. -/
theorem carousel_navigation_cyclic (st : CarouselState) (n : Nat)
    (hn : 1 ≤ n) (hlen : st.files.length = n) (hidx : st.index < n) :
    ((fun s => (nextImage s).1)^[n] st).index = st.index ∧
      ((prevImage (nextImage st).1).1).index = st.index ∧
      ((nextImage (prevImage st).1).1).index = st.index ∧
      (∀ (f0 f1 f2 : Attachment) (fld wid : Option String),
        (prevImage ⟨[f0, f1, f2], 0, fld, wid⟩).1.index = 2 ∧
          (prevImage ⟨[f0, f1, f2], 0, fld, wid⟩).2 = some f2) := by
  subst hlen
  have hne : ¬ st.files.length = 0 := by omega
  refine ⟨?_, ?_, ?_, ?_⟩
  · rcases nextImage_iterate st hn hidx st.files.length with ⟨_, hidx2⟩
    rw [hidx2, Nat.add_mod_right, Nat.mod_eq_of_lt hidx]
  · have h1 : (nextImage st).1.files = st.files := nextImage_files st hne
    have hne1 : ¬ (nextImage st).1.files.length = 0 := by rw [h1]; omega
    rw [prevImage_index _ hne1, h1, nextImage_index st hne,
      prevIndex_eq _ _ hn]
    rcases Nat.lt_or_ge (st.index + 1) st.files.length with h | h
    · rw [Nat.mod_eq_of_lt h]
      have he : st.index + 1 + st.files.length - 1 = st.index + st.files.length := by
        omega
      rw [he, Nat.add_mod_right, Nat.mod_eq_of_lt hidx]
    · have he : st.index + 1 = st.files.length := by omega
      rw [he, Nat.mod_self]
      have hi : st.index = st.files.length - 1 := by omega
      rw [Nat.zero_add, Nat.mod_eq_of_lt (by omega), hi]
  · have h1 : (prevImage st).1.files = st.files := prevImage_files st hne
    have hne1 : ¬ (prevImage st).1.files.length = 0 := by rw [h1]; omega
    rw [nextImage_index _ hne1, h1, prevImage_index st hne,
      prevIndex_eq _ _ hn, Nat.mod_add_mod]
    have he : st.index + st.files.length - 1 + 1 = st.index + st.files.length := by
      omega
    rw [he, Nat.add_mod_right, Nat.mod_eq_of_lt hidx]
  · intro f0 f1 f2 fld wid
    exact ⟨rfl, rfl⟩

/-- Witness for C5 on a concrete 3-item working set at index 1. -/
theorem carousel_navigation_cyclic_witness :
    ((fun s => (nextImage s).1)^[3]
        (⟨[⟨none, "u1", "a", none⟩, ⟨none, "u2", "b", none⟩,
          ⟨none, "u3", "c", none⟩], 1, none, none⟩ : CarouselState)).index = 1 ∧
      ((prevImage (nextImage
        (⟨[⟨none, "u1", "a", none⟩, ⟨none, "u2", "b", none⟩,
          ⟨none, "u3", "c", none⟩], 1, none, none⟩ : CarouselState)).1).1).index = 1 :=
  ⟨(carousel_navigation_cyclic
      ⟨[⟨none, "u1", "a", none⟩, ⟨none, "u2", "b", none⟩,
        ⟨none, "u3", "c", none⟩], 1, none, none⟩ 3
      (by decide) (by decide) (by decide)).1,
   (carousel_navigation_cyclic
      ⟨[⟨none, "u1", "a", none⟩, ⟨none, "u2", "b", none⟩,
        ⟨none, "u3", "c", none⟩], 1, none, none⟩ 3
      (by decide) (by decide) (by decide)).2.1⟩

/-- Claim C10: navigation and rendering are total at the public
interface: on an empty working set `nextImage` and `prevImage` return
with the state unchanged and render nothing, and `displayCarouselItem`
at an index outside `[0, length)` renders nothing (and, being
DOM-only, never touches the carousel state variables). -/
theorem carousel_nav_total (st : CarouselState) (i : Int) :
    (st.files = [] →
        nextImage st = (st, none) ∧ prevImage st = (st, none)) ∧
      (¬ (0 ≤ i ∧ i < st.files.length) →
        displayCarouselItem st.files i = none) := by
  constructor
  · intro h
    have hz : st.files.length = 0 := by simp [h]
    constructor <;> simp [nextImage, prevImage, hz]
  · intro h
    unfold displayCarouselItem
    rw [if_neg h]

/-- Witness for C10 at the closed carousel and a negative index. -/
theorem carousel_nav_total_witness :
    (nextImage closedCarousel = (closedCarousel, none) ∧
        prevImage closedCarousel = (closedCarousel, none)) ∧
      displayCarouselItem closedCarousel.files (-1) = none :=
  ⟨(carousel_nav_total closedCarousel (-1)).1 rfl,
   (carousel_nav_total closedCarousel (-1)).2 (by decide)⟩

/-- Result of the `delete-current-attachment` click handler: carousel
state afterwards, the stored attachment list afterwards, and the item
`displayCarouselItem` re-renders (`none` when the handler aborted or the
viewer closed). -/
structure DeleteCurrentOutcome where
  state : CarouselState
  store : List Attachment
  render : Option Attachment
deriving DecidableEq, Repr

/-- The `delete-current-attachment` click handler (detail.js), modelled at
the store level: `store` is the list the re-read
(`fetchCurrentImagesFromAirtable`, success path) returns and the PATCH
(`updateAirtableRecord`, success path) writes through.  The handler
aborts — alerting, changing nothing — when the warranty id or field name
is missing, when no file sits at the current index, when that file has no
id, or when the user declines the confirm dialog.  Otherwise it filters
the re-read list by the id, writes it back, replaces the working set, and
either closes the viewer (empty result) or clamps the index and
re-renders. -/
def deleteCurrentAttachment (st : CarouselState) (confirmed : Bool)
    (store : List Attachment) : DeleteCurrentOutcome :=
  if strFalsy st.warrantyId then ⟨st, store, none⟩
  else if strFalsy st.fieldName then ⟨st, store, none⟩
  else
    match st.files[st.index]? with
    | none => ⟨st, store, none⟩
    | some fileToDelete =>
        match fileToDelete.id with
        | none => ⟨st, store, none⟩
        | some fid =>
            if !confirmed then ⟨st, store, none⟩
            else
              let updated := store.filter (fun f => f.id ≠ some fid)
              if updated.length = 0 then ⟨closedCarousel, updated, none⟩
              else
                let newIndex := min st.index (updated.length - 1)
                ⟨{ st with files := updated, index := newIndex }, updated,
                  displayCarouselItem updated newIndex⟩

/-- Claim C9: after a successful per-item delete from the open carousel,
the working set is replaced by the filtered re-read list; if that list is
empty the viewer closes (state reset to the closed state), otherwise the
index becomes `min` of the previous index and the new last position —
always a valid position — and the item at that index is re-rendered. -/
theorem deleteCurrentAttachment_reconciles (st : CarouselState)
    (store : List Attachment) (fileToDelete : Attachment) (fid : String)
    (hw : strFalsy st.warrantyId = false)
    (hf : strFalsy st.fieldName = false)
    (hfile : st.files[st.index]? = some fileToDelete)
    (hid : fileToDelete.id = some fid) :
    (deleteCurrentAttachment st true store).store =
        store.filter (fun f => f.id ≠ some fid) ∧
      (deleteCurrentAttachment st true store).state.files =
        store.filter (fun f => f.id ≠ some fid) ∧
      (store.filter (fun f => f.id ≠ some fid) = [] →
        (deleteCurrentAttachment st true store).state = closedCarousel ∧
          (deleteCurrentAttachment st true store).render = none) ∧
      (store.filter (fun f => f.id ≠ some fid) ≠ [] →
        (deleteCurrentAttachment st true store).state.index =
            min st.index ((store.filter (fun f => f.id ≠ some fid)).length - 1) ∧
          (deleteCurrentAttachment st true store).state.index <
            (store.filter (fun f => f.id ≠ some fid)).length ∧
          (deleteCurrentAttachment st true store).render =
            (store.filter (fun f => f.id ≠ some fid))[
              (deleteCurrentAttachment st true store).state.index]?) := by
  simp only [deleteCurrentAttachment, hw, hf, hfile, hid, Bool.false_eq_true,
    if_false, Bool.not_true]
  by_cases hz : (store.filter (fun f => f.id ≠ some fid)).length = 0
  · have hnil : store.filter (fun f => f.id ≠ some fid) = [] :=
      List.length_eq_zero.mp hz
    rw [if_pos hz]
    exact ⟨rfl, by rw [hnil]; rfl, fun _ => ⟨rfl, rfl⟩,
      fun hc => absurd hnil hc⟩
  · rw [if_neg hz]
    have hlt : min st.index ((store.filter (fun f => f.id ≠ some fid)).length - 1) <
        (store.filter (fun f => f.id ≠ some fid)).length := by omega
    refine ⟨rfl, rfl, fun hc => absurd (List.length_eq_zero.mpr hc) hz,
      fun _ => ⟨rfl, hlt, ?_⟩⟩
    exact displayCarouselItem_natIndex _ _ hlt

/-- Witness for C9: deleting the middle item of a 2-item set at index 1
clamps the index to 0 and re-renders the remaining item. -/
theorem deleteCurrentAttachment_reconciles_witness :
    (deleteCurrentAttachment
        ⟨[⟨some "a1", "u1", "a", none⟩, ⟨some "a2", "u2", "b", none⟩], 1,
          some "Picture(s) of Issue", some "WR-1002"⟩ true
        [⟨some "a1", "u1", "a", none⟩, ⟨some "a2", "u2", "b", none⟩]).store =
        [⟨some "a1", "u1", "a", none⟩] ∧
      (deleteCurrentAttachment
        ⟨[⟨some "a1", "u1", "a", none⟩, ⟨some "a2", "u2", "b", none⟩], 1,
          some "Picture(s) of Issue", some "WR-1002"⟩ true
        [⟨some "a1", "u1", "a", none⟩, ⟨some "a2", "u2", "b", none⟩]).state.index = 0 := by
  have h := deleteCurrentAttachment_reconciles
    ⟨[⟨some "a1", "u1", "a", none⟩, ⟨some "a2", "u2", "b", none⟩], 1,
      some "Picture(s) of Issue", some "WR-1002"⟩
    [⟨some "a1", "u1", "a", none⟩, ⟨some "a2", "u2", "b", none⟩]
    ⟨some "a2", "u2", "b", none⟩ "a2" (by decide) (by decide) (by decide)
    (by decide)
  refine ⟨by rw [h.1]; decide, ?_⟩
  have h4 := (h.2.2.2 (by decide)).1
  rw [h4]; decide

/-- Claim C4, counterexample: the stored list holds an entry at url `u1`
and the batch uploads a different entry at the same url.  The merged list
keeps the previously stored entry and does not contain the newly uploaded
one — so newly uploaded files do NOT win url conflicts. -/
theorem uploadToDropbox_newly_uploaded_loses_conflict :
    combinedList [⟨some "att1", "u1", "old.png", none⟩]
        [⟨none, "u1", "new.png", none⟩] =
      [⟨some "att1", "u1", "old.png", none⟩] ∧
    (⟨none, "u1", "new.png", none⟩ : Attachment) ∉
      combinedList [⟨some "att1", "u1", "old.png", none⟩]
        [⟨none, "u1", "new.png", none⟩] := by
  constructor
  · rfl
  · decide

/-- Claim C4 amended: when a newly uploaded attachment and an entry of the
freshly re-read stored list have the same url, the merged list written back
by `uploadToDropbox` contains the previously stored entry, and the newly
uploaded entry is in the merged list only if it was itself already stored
(previously stored entries win url conflicts). -/
theorem uploadToDropbox_stored_entry_wins_conflict
    (latest uploadedUrls : List Attachment) (g f : Attachment)
    (hg : g ∈ latest) (hurl : f.url = g.url) :
    g ∈ combinedList latest uploadedUrls ∧
      (f ∈ combinedList latest uploadedUrls → f ∈ latest) := by
  refine ⟨combinedList_mem_of_mem_init latest uploadedUrls g hg, fun hf => ?_⟩
  rcases combinedList_mem_cases latest uploadedUrls f hf with h | h
  · exact h
  · exact absurd (List.mem_map.mpr ⟨g, hg, hurl.symm⟩) h

/-- Witness for the amended C4 at the counterexample input. -/
theorem uploadToDropbox_stored_entry_wins_conflict_witness :
    (⟨some "att1", "u1", "old.png", none⟩ : Attachment) ∈
        ([⟨some "att1", "u1", "old.png", none⟩] : List Attachment) ∧
      ((⟨some "att1", "u1", "old.png", none⟩ : Attachment) ∈
          combinedList [⟨some "att1", "u1", "old.png", none⟩]
            [⟨none, "u1", "new.png", none⟩] ∧
        ((⟨none, "u1", "new.png", none⟩ : Attachment) ∈
            combinedList [⟨some "att1", "u1", "old.png", none⟩]
              [⟨none, "u1", "new.png", none⟩] →
          (⟨none, "u1", "new.png", none⟩ : Attachment) ∈
            ([⟨some "att1", "u1", "old.png", none⟩] : List Attachment))) :=
  ⟨by decide,
   uploadToDropbox_stored_entry_wins_conflict
     [⟨some "att1", "u1", "old.png", none⟩] [⟨none, "u1", "new.png", none⟩]
     ⟨some "att1", "u1", "old.png", none⟩ ⟨none, "u1", "new.png", none⟩
     (by decide) (by decide)⟩

/-- A row of the warranty table as the resolution query sees it: the
store-assigned record id and the human-facing `Warranty Record ID`. -/
structure WarrantyRow where
  id : String
  warrantyRecordId : String
deriving DecidableEq, Repr

/-- `getRecordIdByWarrantyId(warrantyId)` (detail.js): queries the table
with `filterByFormula` on the `Warranty Record ID` field and
`maxRecords=1`, returning `data.records[0].id` when a record matches and
`null` otherwise; the `catch` also returns `null`, modelled by
`fetchOk = false`. -/
def getRecordIdByWarrantyId (fetchOk : Bool) (rows : List WarrantyRow)
    (warrantyId : String) : Option String :=
  if !fetchOk then none
  else
    match (rows.filter (fun r => r.warrantyRecordId = warrantyId)).head? with
    | some r => some r.id
    | none => none

/-- The JS test `str.startsWith("rec")` for the store key's reserved
prefix: a JS string is its character sequence, so the test is comparison
of the first three characters against `rec`. -/
def startsWithRec (s : String) : Bool := List.isPrefixOf "rec".data s.data

/-- The key-resolution prologue of `updateAirtableRecord` (detail.js):

```js
let resolvedRecordId = lotNameOrRecordId;
if (!resolvedRecordId.startsWith("rec")) {
  resolvedRecordId = await getRecordIdByWarrantyId(lotNameOrRecordId);
  if (!resolvedRecordId) { ...; return; }
}
```
-/
def resolveStoreKey (fetchOk : Bool) (rows : List WarrantyRow)
    (lotNameOrRecordId : String) : Option String :=
  if startsWithRec lotNameOrRecordId then some lotNameOrRecordId
  else getRecordIdByWarrantyId fetchOk rows lotNameOrRecordId

/-- The PATCH request `updateAirtableRecord` issues: target record id and
the sanitized field map (field values abstracted to strings). -/
structure PatchRequest where
  recordId : String
  fields : List (String × String)
deriving DecidableEq, Repr

/-- `updateAirtableRecord(tableName, lotNameOrRecordId, fields)`
(detail.js), modelled up to the PATCH it issues: aborts when offline,
resolves the store key (returning early with no PATCH when resolution
yields null), strips the immutable `Warranty Record ID` field, and
PATCHes the remainder at the resolved record id.  (The optional
`Material Vendor` injection read from the DOM dropdown, the toasts and
the save-button toggling are presentation and are not part of the
model.) -/
def updateAirtableRecord (online fetchOk : Bool) (rows : List WarrantyRow)
    (lotNameOrRecordId : String) (fields : List (String × String)) :
    Option PatchRequest :=
  if !online then none
  else
    match resolveStoreKey fetchOk rows lotNameOrRecordId with
    | none => none
    | some rid =>
        some ⟨rid, fields.filter (fun p => p.1 ≠ "Warranty Record ID")⟩

/-- The head of a filtered list is the first match. -/
lemma filter_head_eq_find {α : Type} (p : α → Bool) (l : List α) :
    (l.filter p).head? = l.find? p := by
  induction l with
  | nil => rfl
  | cons a t ih =>
      by_cases h : p a
      · simp [List.filter_cons, List.find?_cons, h]
      · simp [List.filter_cons, List.find?_cons, h, ih]

/-- Claim C8: store-key resolution.  An input that already carries the
reserved `rec` prefix is returned unchanged, independently of the store's
contents (no query); otherwise the store is queried by business key and
the first match's store key is returned, `null` when nothing matches; and
the record-mutation path (`updateAirtableRecord`) resolves this way
before use — every PATCH it issues targets the resolved key, and no PATCH
is issued when resolution fails. -/
theorem resolveStoreKey_spec (input : String) (rows rows2 : List WarrantyRow)
    (fetchOk fetchOk2 : Bool) (fields : List (String × String)) :
    (startsWithRec input = true →
        resolveStoreKey fetchOk rows input = some input ∧
          resolveStoreKey fetchOk rows input =
            resolveStoreKey fetchOk2 rows2 input) ∧
      (startsWithRec input = false →
        resolveStoreKey true rows input =
            (rows.find? (fun r => r.warrantyRecordId = input)).map
              (fun r => r.id) ∧
          (resolveStoreKey true rows input = none ↔
            ∀ r ∈ rows, ¬ r.warrantyRecordId = input)) ∧
      (∀ p, updateAirtableRecord true fetchOk rows input fields = some p →
        resolveStoreKey fetchOk rows input = some p.recordId) ∧
      (resolveStoreKey fetchOk rows input = none →
        updateAirtableRecord true fetchOk rows input fields = none) := by
  refine ⟨?_, ?_, ?_, ?_⟩
  · intro h
    constructor <;> simp [resolveStoreKey, h]
  · intro h
    have hq : resolveStoreKey true rows input =
        (rows.find? (fun r => r.warrantyRecordId = input)).map (fun r => r.id) := by
      rw [resolveStoreKey, if_neg (by simp [h])]
      rw [getRecordIdByWarrantyId, if_neg (by simp)]
      rw [filter_head_eq_find]
      cases rows.find? (fun r => r.warrantyRecordId = input) <;> rfl
    refine ⟨hq, ?_⟩
    rw [hq]
    cases hfind : rows.find? (fun r => r.warrantyRecordId = input) with
    | none =>
        simp only [Option.map_none', true_iff]
        intro r hr
        have := List.find?_eq_none.mp hfind r hr
        simpa using this
    | some r0 =>
        simp only [Option.map_some']
        constructor
        · intro hc
          exact absurd hc (by simp)
        · intro hnone
          have hr0 := List.find?_some hfind
          have hmem := List.mem_of_find?_eq_some hfind
          exact absurd (by simpa using hr0) (hnone r0 hmem)
  · intro p hp
    rw [updateAirtableRecord, if_neg (by simp)] at hp
    cases hres : resolveStoreKey fetchOk rows input with
    | none => rw [hres] at hp; exact absurd hp (by simp)
    | some rid =>
        rw [hres] at hp
        have : p = ⟨rid, fields.filter (fun q => q.1 ≠ "Warranty Record ID")⟩ := by
          simpa using hp.symm
        rw [this]
  · intro hres
    rw [updateAirtableRecord, if_neg (by simp), hres]

/-- Witness for C8 on a one-row store: a `rec`-prefixed input passes
through, a business key resolves to the row's record id. -/
theorem resolveStoreKey_spec_witness :
    (startsWithRec "recABC123" = true ∧
        resolveStoreKey false [] "recABC123" = some "recABC123") ∧
      (startsWithRec "WR-1002" = false ∧
        resolveStoreKey true [⟨"recABC123", "WR-1002"⟩] "WR-1002" =
          (([⟨"recABC123", "WR-1002"⟩] : List WarrantyRow).find?
              (fun r => r.warrantyRecordId = "WR-1002")).map (fun r => r.id)) :=
  ⟨⟨by decide,
    ((resolveStoreKey_spec "recABC123" [] [] false false []).1 (by decide)).1⟩,
   ⟨by decide,
    ((resolveStoreKey_spec "WR-1002" [⟨"recABC123", "WR-1002"⟩] [] true true
        []).2.1 (by decide)).1⟩⟩

/-- What one upload POST in `uploadFileToDropbox` comes back as, after
`fetchWithRetry`: an ok response carrying `data.path_lower`, a 429 (kept
for faithfulness although `fetchWithRetry` never returns one), a non-ok
response whose error tag reports an expired access token, or any other
failure (non-ok with another tag, or a thrown exception — both return
null without a refresh). -/
inductive UploadResponse where
  | ok (pathLower : String)
  | status429
  | expiredToken
  | otherError
deriving DecidableEq, Repr

/-- Result of `uploadFileToDropbox`: the shared link obtained for the
uploaded path, or null.  `outOfFuel` is a model artifact marking that the
recursion — unbounded in the source on the expiry path — was cut off by
the model's fuel, never reached in the scenarios proved here. -/
inductive UploadResult where
  | link (sharedLink : String)
  | nullResult
  | outOfFuel
deriving DecidableEq, Repr

/-- Observable trace of one `uploadFileToDropbox` call tree: result,
number of upload POSTs issued, number of token refreshes performed. -/
structure UploadTrace where
  result : UploadResult
  requests : Nat
  refreshes : Nat
deriving DecidableEq, Repr

/-- `uploadFileToDropbox(file, token, creds, attempt = 1)` (detail.js):
`responses i` is the outcome of the i-th upload POST of the call tree,
`refreshedTokens j` the token `fetchDropboxToken()` yields after the j-th
`refreshDropboxAccessToken` call, `link` the shared link
`getDropboxSharedLink` returns for an uploaded path.  A missing token
returns null before any request; a 429 retries up to `attempt <= 5` with
the same token; an expired-token response refreshes and re-enters the
function with the new token and the attempt counter reset to its default;
any other failure returns null.  `fuel` bounds the recursion depth (the
source has no such bound on the expiry path). -/
def uploadFileToDropbox (responses : Nat → UploadResponse)
    (refreshedTokens : Nat → Option String) (link : String → String) :
    Nat → Option String → Nat → Nat → Nat → UploadTrace
  | 0, _, _, req, ref => ⟨.outOfFuel, req, ref⟩
  | _ + 1, none, _, req, ref => ⟨.nullResult, req, ref⟩
  | fuel + 1, some tok, attempt, req, ref =>
      match responses req with
      | .status429 =>
          if attempt ≤ 5 then
            uploadFileToDropbox responses refreshedTokens link fuel (some tok)
              (attempt + 1) (req + 1) ref
          else ⟨.nullResult, req + 1, ref⟩
      | .expiredToken =>
          match refreshedTokens ref with
          | some newTok =>
              uploadFileToDropbox responses refreshedTokens link fuel
                (some newTok) 1 (req + 1) (ref + 1)
          | none => ⟨.nullResult, req + 1, ref + 1⟩
      | .otherError => ⟨.nullResult, req + 1, ref⟩
      | .ok path => ⟨.link (link path), req + 1, ref⟩

/-- An `uploadFileToDropbox` call as issued by the upload loop: attempt 1,
no requests or refreshes performed yet. -/
def uploadFileToDropboxCall (responses : Nat → UploadResponse)
    (refreshedTokens : Nat → Option String) (link : String → String)
    (fuel : Nat) (token : Option String) : UploadTrace :=
  uploadFileToDropbox responses refreshedTokens link fuel token 1 0 0

/-- Claim C6, counterexample: an endpoint whose first two upload attempts
report an expired token and whose third succeeds.  The call refreshes
twice and issues three upload requests — the second expiry triggers a
further refresh-and-retry instead of surfacing the error, so the single
failed upload is NOT retried exactly once. -/
theorem uploadFileToDropbox_double_expiry_retries_again :
    uploadFileToDropboxCall
        (fun i => if i ≤ 1 then .expiredToken else .ok "p")
        (fun _ => some "t2") (fun p => String.append "link:" p) 10
        (some "t1") =
      ⟨.link "link:p", 3, 2⟩ := by
  decide

/-- Claim C6 amended: on an upload response indicating token expiry, the
pipeline refreshes the token and retries the failed upload with the new
token, re-entering the upload routine with the attempt counter reset; if
the retry fails with a non-expiry error the failure is surfaced (null
after exactly two requests and one refresh), but a retry that again
reports expiry triggers a further refresh and retry rather than
surfacing — expiry-triggered retries are not limited to one. -/
theorem uploadFileToDropbox_expiry_refresh_retry
    (responses : Nat → UploadResponse) (refreshedTokens : Nat → Option String)
    (link : String → String) (fuel : Nat) (tok newTok : String)
    (h0 : responses 0 = .expiredToken) (hr : refreshedTokens 0 = some newTok)
    (hfuel : 2 ≤ fuel) :
    (responses 1 = .otherError →
        uploadFileToDropboxCall responses refreshedTokens link fuel (some tok) =
          ⟨.nullResult, 2, 1⟩) ∧
      (∀ path, responses 1 = .ok path →
        uploadFileToDropboxCall responses refreshedTokens link fuel (some tok) =
          ⟨.link (link path), 2, 1⟩) ∧
      (responses 1 = .expiredToken → ∀ newTok2,
        refreshedTokens 1 = some newTok2 →
        uploadFileToDropboxCall responses refreshedTokens link fuel (some tok) =
          uploadFileToDropbox responses refreshedTokens link (fuel - 2)
            (some newTok2) 1 2 2) := by
  obtain ⟨f, rfl⟩ : ∃ f, fuel = f + 2 := ⟨fuel - 2, by omega⟩
  refine ⟨?_, ?_, ?_⟩
  · intro h1
    simp [uploadFileToDropboxCall, uploadFileToDropbox, h0, hr, h1]
  · intro path h1
    simp [uploadFileToDropboxCall, uploadFileToDropbox, h0, hr, h1]
  · intro h1 newTok2 hr2
    simp [uploadFileToDropboxCall, uploadFileToDropbox, h0, hr, h1, hr2]

/-- Witness for the amended C6: one expiry, then a plain failure — the
call refreshes once, retries once, and surfaces null. -/
theorem uploadFileToDropbox_expiry_refresh_retry_witness :
    ((fun i => if i = 0 then UploadResponse.expiredToken
        else UploadResponse.otherError) 0 = UploadResponse.expiredToken) ∧
      ((fun _ : Nat => some "t2") 0 = some "t2") ∧
      uploadFileToDropboxCall
          (fun i => if i = 0 then .expiredToken else .otherError)
          (fun _ => some "t2") (fun p => p) 2 (some "t1") =
        ⟨.nullResult, 2, 1⟩ :=
  ⟨rfl, rfl,
   (uploadFileToDropbox_expiry_refresh_retry
      (fun i => if i = 0 then .expiredToken else .otherError)
      (fun _ => some "t2") (fun p => p) 2 "t1" "t2" rfl rfl
      (by decide)).1 rfl⟩
